import Mathlib

/-!
Shallow embedding of `src/whisper-api/main.py` (a FastAPI service exposing
`POST /transcribe`, `GET /health` and `GET /`), together with proofs about it.

Modelling conventions:
* The filesystem is a list of existing paths (used as a set).
* The module-level global `_model` is threaded explicitly as `Option Model`.
* The external Whisper library (`whisper.load_model`, `model.transcribe`) is
  outside this repository; `model.transcribe` is an oracle carried in `Env`,
  and `load_model` is modelled from the spec.
* `os.remove` may raise `OSError` in Python; `Env.removeRaises` says at which
  paths it would. Python's `finally` semantics (an exception raised inside the
  `finally` block replaces the in-flight exception) are modelled explicitly.
* The handler additionally returns a trace of filesystem/transcription events
  so that claims such as "no temp file is ever created" are statable.
-/

namespace Whisper

/-- An uploaded multipart file: original filename plus payload bytes. -/
structure UploadFile where
  filename : String
  content : List Nat
deriving DecidableEq

/-- Handle to the loaded Whisper model. The library is external; per the spec
the handle exposes an identifying name/tag. -/
structure Model where
  model_name : String
deriving DecidableEq

/-- Modelled from the spec: `whisper.load_model` is the external transcription
capability (not part of this repository). The spec fixes the variant to
"base" and says the handle exposes an identifying name/tag, so the handle is
modelled as carrying the variant name it was loaded with. -/
def load_model (name : String) : Model := ⟨name⟩

/-- The module global `_model` starts as `None`; `get_model` loads on first
call and caches (main.py lines 33-40). Returns the handle, the new value of
the global, and whether a load was performed by this call. -/
def get_model (m : Option Model) : Model × Option Model × Bool :=
  match m with
  | some mm => (mm, some mm, false)
  | none => (load_model "base", some (load_model "base"), true)

/-- The untrusted-shape mapping returned by `model.transcribe`: each key may
be absent. -/
structure WhisperOutput where
  text : Option String
  language : Option String
  duration : Option Int
deriving DecidableEq

/-- Outcome of the external `model.transcribe` call: a result mapping, or the
library raised an exception. -/
inductive TranscribeRun where
  | ok (result : WhisperOutput)
  | raised
deriving DecidableEq

/-- The successful response body (main.py lines 42-45 and 91-95). -/
structure TranscribeResponse where
  transcript : String
  language : String
  duration : Int
deriving DecidableEq

/-- Errors the handler can finish with: `HTTPException(status, detail)`,
a `KeyError` from reading a required key of the untrusted mapping, the
exception raised by `model.transcribe`, an `OSError` from `os.remove`, or a
`TypeError` (unreachable guard case). -/
inductive HError where
  | httpExc (status : Nat) (detail : String)
  | keyError (key : String)
  | transcribeError
  | osError (path : String)
  | typeError
deriving DecidableEq

/-- Result of one handler invocation. -/
inductive Outcome where
  | ok (resp : TranscribeResponse)
  | err (e : HError)
deriving DecidableEq

/-- Observable filesystem / transcription events of one handler run. -/
inductive Event where
  | createTemp (path : String)
  | invokeTranscribe (path : String)
  | removeTemp (path : String)
deriving DecidableEq

/-- Environment of one request: the unique name produced by
`next(tempfile._get_candidate_names())`, the external transcription oracle,
and at which paths `os.remove` would raise `OSError`. -/
structure Env where
  freshName : String
  transcribeResult : String → TranscribeRun
  removeRaises : String → Bool

/-- Mutable state visible to the handler: the filesystem (set of existing
paths) and the module global `_model`. -/
structure AppState where
  fs : List String
  modelSlot : Option Model
deriving DecidableEq

/-- Final result of `transcribe_audio`: outcome, state after, event trace. -/
structure HandlerResult where
  outcome : Outcome
  state : AppState
  events : List Event
deriving DecidableEq

/-- Result of the `try` block body: outcome, state, events, and the value of
the `temp_file` local (None when no temp file was allocated). -/
structure TryResult where
  outcome : Outcome
  state : AppState
  events : List Event
  temp_file : Option String
deriving DecidableEq

/-- Python truthiness of the `file` parameter: a non-None `UploadFile` object
is always truthy. -/
def uploadTruthy : Option UploadFile → Bool
  | none => false
  | some _ => true

/-- Python truthiness of the `file_path` parameter: None and the empty string
are falsy. -/
def strTruthy : Option String → Bool
  | none => false
  | some s => decide (s ≠ "")

/-- Python `os.path.exists`: false for the empty path, else membership. -/
def os_path_exists (fs : List String) (p : String) : Bool :=
  decide (p ≠ "" ∧ p ∈ fs)

/-- Effect of `open(p, "wb")` + `shutil.copyfileobj`: the path exists
afterwards (create if absent, overwrite otherwise). -/
def writeFile (fs : List String) (p : String) : List String :=
  if p ∈ fs then fs else p :: fs

/-- Effect of a successful `os.remove(p)`. -/
def removeFile (fs : List String) (p : String) : List String :=
  fs.erase p

/-- The fixed temp root `Path("/tmp/whisper_api")` (main.py line 17). -/
def temp_dir : String := "/tmp/whisper_api"

/-- The temp path `temp_dir / f"{next(tempfile._get_candidate_names())}{suffix}"`
(main.py line 76). -/
def tempPath (fresh sfx : String) : String :=
  temp_dir ++ "/" ++ (fresh ++ sfx)

/-- The allowed extensions (main.py line 67). -/
def valid_formats : List String := [".mp3", ".wav", ".m4a", ".webm"]

/-- Split a character list at every '/' (same contract as Python's
`str.split('/')`: n separators give n+1 pieces, possibly empty). -/
def splitOnSlash (cs : List Char) : List (List Char) :=
  match cs with
  | [] => [[]]
  | c :: rest =>
    let r := splitOnSlash rest
    if c == '/' then [] :: r
    else
      match r with
      | [] => [[c]]
      | h :: t => (c :: h) :: t

/-- The `name` property of CPython's `pathlib.PurePosixPath`: split on "/",
drop empty and "." components, take the last component (or the empty name). -/
def pathNameChars (s : String) : List Char :=
  (((splitOnSlash s.data).filter (fun c => !(c == []) && !(c == ['.']))).getLast?).getD []

/-- Index of the last '.' in a character list, if any (Python `str.rfind`). -/
def lastDotIdx (cs : List Char) : Option Nat :=
  ((List.range cs.length).filter (fun i => cs.getD i ' ' == '.')).getLast?

/-- The `suffix` property of CPython's `pathlib.PurePath`: with `name` the
final component and `i = name.rfind('.')`, return `name[i:]` when
`0 < i < len(name) - 1`, else the empty string. -/
def pathSuffix (filename : String) : String :=
  let name := pathNameChars filename
  match lastDotIdx name with
  | some i => if 0 < i ∧ i < name.length - 1 then String.mk (name.drop i) else ""
  | none => ""

/-- Python `str.lower` (only ASCII letters matter for the extension check). -/
def strLower (s : String) : String := String.mk (s.data.map Char.toLower)

/-- Steps `model = get_model(); result = model.transcribe(audio_path)` and the
construction of the response dict (main.py lines 88-95), reading `text` and
`language` as required keys (a missing key is a `KeyError`, in evaluation
order) and `duration` with default 0. -/
def runTranscription (env : Env) (audio_path : String) (st : AppState)
    (tr : List Event) (tf : Option String) : TryResult :=
  let gm := get_model st.modelSlot
  let st1 : AppState := { st with modelSlot := gm.2.1 }
  let tr1 := tr ++ [Event.invokeTranscribe audio_path]
  match env.transcribeResult audio_path with
  | .raised => ⟨.err .transcribeError, st1, tr1, tf⟩
  | .ok result =>
    match result.text with
    | none => ⟨.err (.keyError "text"), st1, tr1, tf⟩
    | some t =>
      match result.language with
      | none => ⟨.err (.keyError "language"), st1, tr1, tf⟩
      | some l => ⟨.ok ⟨t, l, result.duration.getD 0⟩, st1, tr1, tf⟩

/-- The `try` block of `transcribe_audio` (main.py lines 62-95): upload branch
validates the extension, allocates the temp file and copies the payload into
it; path branch requires the path to exist and uses it directly. The `none`/
`none` case is unreachable behind the guard (in Python it would reach
`os.path.exists(None)`, a `TypeError`). -/
def tryBody (env : Env) (file : Option UploadFile) (file_path : Option String)
    (st : AppState) : TryResult :=
  match file with
  | some f =>
    let sfx := pathSuffix f.filename
    if valid_formats.contains (strLower sfx) = false then
      ⟨.err (.httpExc 400 ("Unsupported file format. Supported formats: " ++
        String.intercalate ", " valid_formats)), st, [], none⟩
    else
      let temp_file := tempPath env.freshName sfx
      runTranscription env temp_file { st with fs := writeFile st.fs temp_file }
        [Event.createTemp temp_file] (some temp_file)
  | none =>
    match file_path with
    | some p =>
      if os_path_exists st.fs p = false then
        ⟨.err (.httpExc 404 ("File not found: " ++ p)), st, [], none⟩
      else
        runTranscription env p st [] none
    | none => ⟨.err .typeError, st, [], none⟩

/-- The `finally` block (main.py lines 97-100): when a temp file was allocated
and still exists, call `os.remove`; per Python semantics, an exception raised
inside `finally` replaces the in-flight outcome. -/
def finallyCleanup (env : Env) (r : TryResult) : HandlerResult :=
  match r.temp_file with
  | none => ⟨r.outcome, r.state, r.events⟩
  | some t =>
    if os_path_exists r.state.fs t then
      if env.removeRaises t then
        ⟨.err (.osError t), r.state, r.events⟩
      else
        ⟨r.outcome, { r.state with fs := removeFile r.state.fs t },
          r.events ++ [Event.removeTemp t]⟩
    else ⟨r.outcome, r.state, r.events⟩

/-- The whole `transcribe_audio` handler (main.py lines 47-100). -/
def transcribe_audio (env : Env) (file : Option UploadFile)
    (file_path : Option String) (st : AppState) : HandlerResult :=
  if !uploadTruthy file && !strTruthy file_path then
    ⟨.err (.httpExc 400 "No audio file provided"), st, []⟩
  else
    finallyCleanup env (tryBody env file file_path st)

/-- Response body of `GET /health`. -/
structure HealthResponse where
  status : String
  model : String
deriving DecidableEq

/-- The `health_check` handler (main.py lines 102-106): force the model and
report `{"status": "ok", "model": model.model_name}`. Returns the response,
the new `_model` global, and whether this call performed a load. -/
def health_check (m : Option Model) : HealthResponse × Option Model × Bool :=
  let gm := get_model m
  (⟨"ok", gm.1.model_name⟩, gm.2.1, gm.2.2)

/-! Sanity checks: the path helpers agree with CPython's `pathlib` on
representative inputs. -/

example : pathSuffix "song.MP3" = ".MP3" := by decide

example : pathSuffix ".mp3" = "" := by decide

example : pathSuffix "a/b.wav" = ".wav" := by decide

example : pathSuffix "a." = "" := by decide

example : pathSuffix "x.tar.gz" = ".gz" := by decide

example : pathSuffix "noext" = "" := by decide

example : strLower ".MP3" = ".mp3" := by decide

/-! Helper lemmas. -/

/-- A freshly generated temp path is never the empty string. -/
lemma tempPath_ne_empty (f s : String) : tempPath f s ≠ "" := by
  intro h
  have h2 := congrArg String.length h
  rw [tempPath, String.length_append] at h2
  have h3 : (temp_dir ++ "/").length = 17 := by decide
  have h4 : ("" : String).length = 0 := by decide
  rw [h3, h4] at h2
  omega

/-- After writing a file, `os.path.exists` holds at that path. -/
lemma os_path_exists_writeFile (fs : List String) (t : String) (h : t ≠ "") :
    os_path_exists (writeFile fs t) t = true := by
  simp only [os_path_exists, writeFile, decide_eq_true_eq]
  refine ⟨h, ?_⟩
  by_cases hc : t ∈ fs
  · rw [if_pos hc]; exact hc
  · rw [if_neg hc]; exact List.mem_cons_self t fs

/-- Writing a path and then removing it leaves a filesystem without it
(for a duplicate-free filesystem). -/
lemma not_mem_removeFile_writeFile (fs : List String) (t : String) (h : fs.Nodup) :
    t ∉ removeFile (writeFile fs t) t := by
  unfold removeFile writeFile
  by_cases hc : t ∈ fs
  · simp only [if_pos hc]
    intro hmem
    exact ((List.Nodup.mem_erase_iff h).mp hmem).1 rfl
  · simp only [if_neg hc]
    rw [List.erase_cons_head]
    exact hc

/-- The events, filesystem and `temp_file` local after the transcription step
do not depend on the oracle's answer. -/
lemma runTranscription_events (env : Env) (p : String) (st : AppState)
    (tr : List Event) (tf : Option String) :
    (runTranscription env p st tr tf).events = tr ++ [Event.invokeTranscribe p] ∧
    (runTranscription env p st tr tf).state.fs = st.fs ∧
    (runTranscription env p st tr tf).temp_file = tf := by
  unfold runTranscription
  cases env.transcribeResult p with
  | raised => exact ⟨rfl, rfl, rfl⟩
  | ok result =>
    obtain ⟨tx, lg, du⟩ := result
    cases tx <;> cases lg <;> exact ⟨rfl, rfl, rfl⟩

/-- When no temp file was allocated, the `finally` block does nothing. -/
lemma finallyCleanup_none (env : Env) (r : TryResult) (h : r.temp_file = none) :
    finallyCleanup env r = ⟨r.outcome, r.state, r.events⟩ := by
  unfold finallyCleanup
  rw [h]

/-- Shape of the handler on the upload branch with an accepted extension. -/
lemma upload_branch_shape (env : Env) (file_path : Option String) (st : AppState)
    (u : UploadFile)
    (hfmt : valid_formats.contains (strLower (pathSuffix u.filename)) = true) :
    transcribe_audio env (some u) file_path st =
      finallyCleanup env
        (runTranscription env (tempPath env.freshName (pathSuffix u.filename))
          { st with fs := writeFile st.fs (tempPath env.freshName (pathSuffix u.filename)) }
          [Event.createTemp (tempPath env.freshName (pathSuffix u.filename))]
          (some (tempPath env.freshName (pathSuffix u.filename)))) := by
  have hmem : strLower (pathSuffix u.filename) ∈ valid_formats := by
    simpa using hfmt
  simp [transcribe_audio, uploadTruthy, tryBody, hmem]

/-- Shape of the handler on the local-path branch with an existing path. -/
lemma path_branch_shape (env : Env) (p : String) (st : AppState)
    (hp : p ≠ "") (hex : os_path_exists st.fs p = true) :
    transcribe_audio env none (some p) st =
      finallyCleanup env (runTranscription env p st [] none) := by
  simp [transcribe_audio, uploadTruthy, strTruthy, hp, tryBody, hex]

/-- Truthiness of `os.path.exists` gives a nonempty path. -/
lemma ne_empty_of_os_path_exists (fs : List String) (p : String)
    (h : os_path_exists fs p = true) : p ≠ "" := by
  simp only [os_path_exists, decide_eq_true_eq] at h
  exact h.1

/-! Concrete environments and states used by witnesses and counterexamples. -/

/-- Environment whose transcription oracle always succeeds with
`{"text": "hello", "language": "en", "duration": 3}` and where `os.remove`
never raises. -/
def envHello : Env := ⟨"abc123", fun _ => .ok ⟨some "hello", some "en", some 3⟩, fun _ => false⟩

/-- Environment whose transcription oracle always raises and where
`os.remove` never raises. -/
def envRaiseRemoveOk : Env := ⟨"abc123", fun _ => .raised, fun _ => false⟩

/-- Environment whose transcription oracle always raises and where
`os.remove` raises `OSError` at every path. -/
def envRaiseRemoveFails : Env := ⟨"abc123", fun _ => .raised, fun _ => true⟩

/-- Empty filesystem, model not yet loaded. -/
def stEmpty : AppState := ⟨[], none⟩

/-- Filesystem holding one audio file, model not yet loaded. -/
def stAudio : AppState := ⟨["audio.wav"], none⟩

/-! The claims. -/

/-- C1: for every request that uploads a file with an allowed extension, a
temporary file is created under the fixed temp root during handling, and that
file no longer exists once the operation ends, whatever the transcription
step does (success, library exception, or a malformed result mapping). The
exit-path enumeration of the claim — success, validation failure,
transcription failure — is captured by quantifying over the oracle; the
`removeRaises` hypothesis pins the cleanup call itself to its normal
(non-raising) behaviour, which is exactly the situation of those exit paths. -/
theorem C1_temp_file_lifecycle (env : Env) (file_path : Option String)
    (st : AppState) (u : UploadFile)
    (hfmt : valid_formats.contains (strLower (pathSuffix u.filename)) = true)
    (hnd : st.fs.Nodup)
    (hrm : env.removeRaises (tempPath env.freshName (pathSuffix u.filename)) = false) :
    Event.createTemp (tempPath env.freshName (pathSuffix u.filename)) ∈
        (transcribe_audio env (some u) file_path st).events ∧
    (∃ rest, tempPath env.freshName (pathSuffix u.filename) = temp_dir ++ "/" ++ rest) ∧
    tempPath env.freshName (pathSuffix u.filename) ∉
        (transcribe_audio env (some u) file_path st).state.fs := by
  have hshape := upload_branch_shape env file_path st u hfmt
  set t := tempPath env.freshName (pathSuffix u.filename) with hts
  set st1 : AppState := { st with fs := writeFile st.fs t } with hst1
  obtain ⟨he, hf, htf⟩ :=
    runTranscription_events env t st1 [Event.createTemp t] (some t)
  set r := runTranscription env t st1 [Event.createTemp t] (some t) with hr
  have hex : os_path_exists r.state.fs t = true := by
    rw [hf]
    exact os_path_exists_writeFile st.fs t (by rw [hts]; exact tempPath_ne_empty _ _)
  have hfin : transcribe_audio env (some u) file_path st =
      ⟨r.outcome, { r.state with fs := removeFile r.state.fs t },
        r.events ++ [Event.removeTemp t]⟩ := by
    rw [hshape]
    unfold finallyCleanup
    rw [htf]
    simp [hex, hrm]
  rw [hfin]
  refine ⟨?_, ⟨env.freshName ++ pathSuffix u.filename, by rw [hts]; rfl⟩, ?_⟩
  · rw [he]
    simp
  · show t ∉ removeFile r.state.fs t
    rw [hf]
    exact not_mem_removeFile_writeFile st.fs t hnd

/-- C1 witness: uploading "song.MP3" (allowed, case-insensitively) against a
one-file filesystem creates and then removes the temp copy. -/
theorem C1_temp_file_lifecycle_witness :
    valid_formats.contains (strLower (pathSuffix "song.MP3")) = true ∧
    stAudio.fs.Nodup ∧
    envHello.removeRaises (tempPath envHello.freshName (pathSuffix "song.MP3")) = false ∧
    (Event.createTemp (tempPath envHello.freshName (pathSuffix "song.MP3")) ∈
        (transcribe_audio envHello (some ⟨"song.MP3", [7]⟩) none stAudio).events ∧
      (∃ rest, tempPath envHello.freshName (pathSuffix "song.MP3") = temp_dir ++ "/" ++ rest) ∧
      tempPath envHello.freshName (pathSuffix "song.MP3") ∉
        (transcribe_audio envHello (some ⟨"song.MP3", [7]⟩) none stAudio).state.fs) :=
  ⟨by decide, by decide, rfl,
    C1_temp_file_lifecycle envHello none stAudio ⟨"song.MP3", [7]⟩ (by decide) (by decide) rfl⟩

/-- C2: an upload whose extension (lowercased) is not among
{.mp3, .wav, .m4a, .webm} is rejected with a 400 whose detail lists exactly
the four allowed formats, with no filesystem effect and no temp file. -/
theorem C2_unsupported_format (env : Env) (u : UploadFile)
    (file_path : Option String) (st : AppState)
    (hfmt : valid_formats.contains (strLower (pathSuffix u.filename)) = false) :
    transcribe_audio env (some u) file_path st =
      ⟨.err (.httpExc 400
        "Unsupported file format. Supported formats: .mp3, .wav, .m4a, .webm"), st, []⟩ := by
  have hmem : strLower (pathSuffix u.filename) ∉ valid_formats := by
    simpa using hfmt
  have hjoin : "Unsupported file format. Supported formats: " ++
      String.intercalate ", " valid_formats =
      "Unsupported file format. Supported formats: .mp3, .wav, .m4a, .webm" := by decide
  simp [transcribe_audio, uploadTruthy, tryBody, hmem, finallyCleanup, hjoin]

/-- C2 witness: uploading "notes.txt" yields the 400 listing the four
formats, and the state and trace are untouched. -/
theorem C2_unsupported_format_witness :
    valid_formats.contains (strLower (pathSuffix "notes.txt")) = false ∧
    transcribe_audio envHello (some ⟨"notes.txt", [1]⟩) none stEmpty =
      ⟨.err (.httpExc 400
        "Unsupported file format. Supported formats: .mp3, .wav, .m4a, .webm"), stEmpty, []⟩ :=
  ⟨by decide, C2_unsupported_format envHello ⟨"notes.txt", [1]⟩ none stEmpty (by decide)⟩

/-- C3: a request with neither upload nor path is rejected with
400 "No audio file provided", before any temp file is created (empty trace,
unchanged state). -/
theorem C3_no_source_rejected (env : Env) (st : AppState) :
    transcribe_audio env none none st =
      ⟨.err (.httpExc 400 "No audio file provided"), st, []⟩ := rfl

/-- C4 counterexample: the request that supplies only the empty-string
`file_path` — a path that does not exist (`os.path.exists("")` is false) — is
answered with status 400 ("No audio file provided"), not with the 404 the
claim requires, because the handler tests Python truthiness, under which ""
counts as absent. -/
theorem C4_counterexample :
    transcribe_audio envHello none (some "") stEmpty =
      ⟨.err (.httpExc 400 "No audio file provided"), stEmpty, []⟩ ∧
    os_path_exists stEmpty.fs "" = false := by
  exact ⟨rfl, rfl⟩

/-- C4 amended: for every request that supplies only a NON-EMPTY `file_path`
naming a nonexistent path, the handler fails with a 404 whose message is
"File not found: " followed by that path, with no temp file created (empty
trace, unchanged state). -/
theorem C4_not_found (env : Env) (p : String) (st : AppState)
    (hp : p ≠ "") (hex : os_path_exists st.fs p = false) :
    transcribe_audio env none (some p) st =
      ⟨.err (.httpExc 404 ("File not found: " ++ p)), st, []⟩ := by
  simp [transcribe_audio, uploadTruthy, strTruthy, hp, tryBody, hex, finallyCleanup]

/-- C4 witness: a nonexistent nonempty path gets the 404 with the path in the
message. -/
theorem C4_not_found_witness :
    ("/missing.wav" : String) ≠ "" ∧
    os_path_exists stEmpty.fs "/missing.wav" = false ∧
    transcribe_audio envHello none (some "/missing.wav") stEmpty =
      ⟨.err (.httpExc 404 ("File not found: " ++ "/missing.wav")), stEmpty, []⟩ :=
  ⟨by decide, by decide, C4_not_found envHello "/missing.wav" stEmpty (by decide) (by decide)⟩

/-- C5 counterexample: a request with BOTH an upload and a populated
`file_path` is processed past validation (it even succeeds), so it is not
true that every request processed past validation has only one of the two
input forms populated: the handler never rejects the combination, it simply
prefers the upload. -/
theorem C5_counterexample :
    uploadTruthy (some ⟨"u.mp3", []⟩) = true ∧
    strTruthy (some "audio.wav") = true ∧
    transcribe_audio envHello (some ⟨"u.mp3", []⟩) (some "audio.wav") stAudio =
      ⟨.ok ⟨"hello", "en", 3⟩, ⟨["audio.wav"], some (load_model "base")⟩,
        [.createTemp "/tmp/whisper_api/abc123.mp3",
         .invokeTranscribe "/tmp/whisper_api/abc123.mp3",
         .removeTemp "/tmp/whisper_api/abc123.mp3"]⟩ := by
  refine ⟨rfl, by decide, by decide⟩

/-- C5 amended: at least one of the two input forms must be populated — a
request with neither (under Python truthiness) is rejected with
400 "No audio file provided" — and when an upload is populated the handler
ignores `file_path` entirely (its output does not depend on it). -/
theorem C5_one_source_required_upload_preferred (env : Env)
    (f : Option UploadFile) (p p1 p2 : Option String) (st : AppState) :
    ((!uploadTruthy f && !strTruthy p) = true →
      transcribe_audio env f p st =
        ⟨.err (.httpExc 400 "No audio file provided"), st, []⟩) ∧
    (uploadTruthy f = true →
      transcribe_audio env f p1 st = transcribe_audio env f p2 st) := by
  constructor
  · intro h
    simp [transcribe_audio, h]
  · intro h
    cases f with
    | none => simp [uploadTruthy] at h
    | some u => rfl

/-- C5 witness: the empty request is rejected, and with an upload present the
response is the same whatever `file_path` says. -/
theorem C5_one_source_required_upload_preferred_witness :
    (!uploadTruthy (none : Option UploadFile) && !strTruthy (none : Option String)) = true ∧
    uploadTruthy (some ⟨"v.wav", []⟩) = true ∧
    transcribe_audio envHello none none stEmpty =
      ⟨.err (.httpExc 400 "No audio file provided"), stEmpty, []⟩ ∧
    transcribe_audio envHello (some ⟨"v.wav", []⟩) (some "a") stEmpty =
      transcribe_audio envHello (some ⟨"v.wav", []⟩) (some "b") stEmpty :=
  ⟨by decide, rfl,
    (C5_one_source_required_upload_preferred envHello none none none none stEmpty).1 (by decide),
    (C5_one_source_required_upload_preferred envHello (some ⟨"v.wav", []⟩) none
      (some "a") (some "b") stEmpty).2 rfl⟩

/-- C6: evaluation at the failing input. When transcription raises and
`os.remove` succeeds, the temp file is deleted and the transcription error
propagates (first two conjuncts). But when `os.remove` itself raises inside
the bare `finally`, Python replaces the in-flight exception: the handler
surfaces the cleanup `OSError`, the original transcription error is lost, and
the temp file even persists (last two conjuncts) — contradicting the claim
that a cleanup failure never replaces or swallows the prior error. -/
theorem C6_cleanup_can_mask_error :
    (transcribe_audio envRaiseRemoveOk (some ⟨"a.wav", []⟩) none stEmpty).outcome =
      .err .transcribeError ∧
    (transcribe_audio envRaiseRemoveOk (some ⟨"a.wav", []⟩) none stEmpty).state.fs = [] ∧
    (transcribe_audio envRaiseRemoveFails (some ⟨"a.wav", []⟩) none stEmpty).outcome =
      .err (.osError "/tmp/whisper_api/abc123.wav") ∧
    (transcribe_audio envRaiseRemoveFails (some ⟨"a.wav", []⟩) none stEmpty).state.fs =
      ["/tmp/whisper_api/abc123.wav"] := by
  refine ⟨by decide, by decide, by decide, by decide⟩

/-- C7: on the path branch, when the transcription oracle succeeds with
mapping `d`, the handler reads `text` and `language` as required keys (a
missing one is a `KeyError`, `text` checked first) and defaults `duration`
to 0 when absent; on success the response is exactly
⟨text, language, duration or 0⟩. -/
theorem C7_result_shape (env : Env) (p : String) (st : AppState)
    (d : WhisperOutput)
    (hex : os_path_exists st.fs p = true)
    (hres : env.transcribeResult p = .ok d) :
    (∀ t l, d.text = some t → d.language = some l →
      (transcribe_audio env none (some p) st).outcome =
        .ok ⟨t, l, d.duration.getD 0⟩) ∧
    (∀ t l v, d.text = some t → d.language = some l → d.duration = some v →
      (transcribe_audio env none (some p) st).outcome = .ok ⟨t, l, v⟩) ∧
    (∀ t l, d.text = some t → d.language = some l → d.duration = none →
      (transcribe_audio env none (some p) st).outcome = .ok ⟨t, l, 0⟩) ∧
    (d.text = none →
      (transcribe_audio env none (some p) st).outcome = .err (.keyError "text")) ∧
    (∀ t, d.text = some t → d.language = none →
      (transcribe_audio env none (some p) st).outcome = .err (.keyError "language")) := by
  have hp : p ≠ "" := ne_empty_of_os_path_exists st.fs p hex
  have hshape := path_branch_shape env p st hp hex
  rw [hshape]
  obtain ⟨tx, lg, du⟩ := d
  refine ⟨?_, ?_, ?_, ?_, ?_⟩
  · intro t l h1 h2
    simp only at h1 h2
    subst h1; subst h2
    simp [runTranscription, hres, finallyCleanup]
  · intro t l v h1 h2 h3
    simp only at h1 h2 h3
    subst h1; subst h2; subst h3
    simp [runTranscription, hres, finallyCleanup]
  · intro t l h1 h2 h3
    simp only at h1 h2 h3
    subst h1; subst h2; subst h3
    simp [runTranscription, hres, finallyCleanup]
  · intro h1
    simp only at h1
    subst h1
    simp [runTranscription, hres, finallyCleanup]
  · intro t h1 h2
    simp only at h1 h2
    subst h1; subst h2
    simp [runTranscription, hres, finallyCleanup]

/-- C7 witness: transcribing the existing "audio.wav" with the oracle
returning text "hello", language "en", duration 3 yields exactly that
response. -/
theorem C7_result_shape_witness :
    os_path_exists stAudio.fs "audio.wav" = true ∧
    envHello.transcribeResult "audio.wav" = .ok ⟨some "hello", some "en", some 3⟩ ∧
    (transcribe_audio envHello none (some "audio.wav") stAudio).outcome =
      .ok ⟨"hello", "en", (3 : Int)⟩ :=
  ⟨by decide, rfl,
    (C7_result_shape envHello "audio.wav" stAudio ⟨some "hello", some "en", some 3⟩
      (by decide) rfl).2.1 "hello" "en" 3 rfl rfl rfl⟩

/-- C8: `get_model` is a lazy singleton — the first call (empty slot) loads
the fixed "base" variant; a second call returns the identical handle, leaves
the slot unchanged and performs no load; hence two consecutive `/health`
calls observe the same response (handle tag included) and the second one
never loads. -/
theorem C8_lazy_singleton (m0 : Option Model) :
    ((get_model m0).2.2 = true ↔ m0 = none) ∧
    (m0 = none → (get_model m0).1 = load_model "base") ∧
    (get_model (get_model m0).2.1).1 = (get_model m0).1 ∧
    (get_model (get_model m0).2.1).2.1 = (get_model m0).2.1 ∧
    (get_model (get_model m0).2.1).2.2 = false ∧
    (health_check (health_check m0).2.1).1 = (health_check m0).1 ∧
    (health_check (health_check m0).2.1).2.2 = false := by
  cases m0 <;> simp [get_model, health_check, load_model]

/-- C8 witness: starting from the unloaded slot, the first call loads "base"
and the second call is a no-op returning the same handle. -/
theorem C8_lazy_singleton_witness :
    (get_model none).1 = load_model "base" ∧
    (get_model (get_model none).2.1).1 = (get_model none).1 ∧
    (get_model (get_model none).2.1).2.2 = false ∧
    (health_check (health_check none).2.1).1 = (health_check none).1 :=
  ⟨(C8_lazy_singleton none).2.1 rfl,
    (C8_lazy_singleton none).2.2.1,
    (C8_lazy_singleton none).2.2.2.2.1,
    (C8_lazy_singleton none).2.2.2.2.2.1⟩

/-- C9 counterexample: a request that supplies a `file_path` naming the
existing file "audio.wav" TOGETHER WITH an upload is transcribed from a fresh
temp copy, not from that path: a temp file is created and removed, and the
invoked path differs from the supplied one — so the claim fails as stated for
requests that also carry an upload. -/
theorem C9_counterexample :
    os_path_exists stAudio.fs "audio.wav" = true ∧
    (transcribe_audio envHello (some ⟨"v.WAV", []⟩) (some "audio.wav") stAudio).events =
      [.createTemp "/tmp/whisper_api/abc123.WAV",
       .invokeTranscribe "/tmp/whisper_api/abc123.WAV",
       .removeTemp "/tmp/whisper_api/abc123.WAV"] ∧
    ("/tmp/whisper_api/abc123.WAV" : String) ≠ "audio.wav" := by
  refine ⟨by decide, by decide, by decide⟩

/-- C9 amended: for every request that supplies a `file_path` naming an
existing file AND NO UPLOAD, transcription is invoked directly on that path —
the only event is the invocation (no temp copy is created, nothing is
removed) and the filesystem is unchanged, so the supplied file is untouched. -/
theorem C9_direct_path_no_copy (env : Env) (p : String) (st : AppState)
    (hex : os_path_exists st.fs p = true) :
    (transcribe_audio env none (some p) st).events = [Event.invokeTranscribe p] ∧
    (transcribe_audio env none (some p) st).state.fs = st.fs := by
  have hp : p ≠ "" := ne_empty_of_os_path_exists st.fs p hex
  have hshape := path_branch_shape env p st hp hex
  rw [hshape]
  obtain ⟨he, hf, htf⟩ := runTranscription_events env p st [] none
  rw [finallyCleanup_none env _ htf]
  exact ⟨by rw [he]; rfl, hf⟩

/-- C9 witness: a path-only request on the existing "audio.wav" only invokes
transcription on it and leaves the filesystem as it was. -/
theorem C9_direct_path_no_copy_witness :
    os_path_exists stAudio.fs "audio.wav" = true ∧
    (transcribe_audio envHello none (some "audio.wav") stAudio).events =
      [Event.invokeTranscribe "audio.wav"] ∧
    (transcribe_audio envHello none (some "audio.wav") stAudio).state.fs = stAudio.fs :=
  ⟨by decide, (C9_direct_path_no_copy envHello "audio.wav" stAudio (by decide)).1,
    (C9_direct_path_no_copy envHello "audio.wav" stAudio (by decide)).2⟩

/-- C10: from any reachable model slot (unloaded, or holding the handle the
one load in this program produces), `/health` answers status "ok" with the
non-empty tag "base", and on the first call it performs the load. -/
theorem C10_health_ok (m0 : Option Model)
    (h : m0 = none ∨ m0 = some (load_model "base")) :
    (health_check m0).1.status = "ok" ∧
    (health_check m0).1.model = "base" ∧
    (health_check m0).1.model ≠ "" ∧
    (m0 = none → (health_check m0).2.2 = true) := by
  rcases h with h | h <;> subst h <;>
    exact ⟨rfl, rfl, by decide, fun h2 => by simp_all [health_check, get_model]⟩

/-- C10 witness: the first `/health` call loads the model and reports
status "ok" with the non-empty tag. -/
theorem C10_health_ok_witness :
    ((none : Option Model) = none ∨ (none : Option Model) = some (load_model "base")) ∧
    (health_check none).1.status = "ok" ∧
    (health_check none).1.model ≠ "" ∧
    (health_check none).2.2 = true :=
  ⟨Or.inl rfl, (C10_health_ok none (Or.inl rfl)).1,
    (C10_health_ok none (Or.inl rfl)).2.2.1,
    (C10_health_ok none (Or.inl rfl)).2.2.2 rfl⟩

end Whisper
